import Mathlib

/-!
Shallow embedding of `aws-crt-c-flags/src/lib.rs` (crate `aws_crt_c_flags`):
the cross-module build-configuration propagation protocol and the
flag/define/include aggregation logic of `CRTModuleBuildInfo`.

Conventions of the embedding:
* `PathBuf` is modelled as `String`.
* The external toolchain driver (`cc::Build`) is out of scope in the source
  (spec section 1); it is modelled as a recorder of the ordered sequence of
  configuration calls made against it, following the toolchain driver
  contract of spec section 6.
* Environment/outcome-dependent behaviour (compiler family, flag-support
  checks, probe compilations, filesystem successes, compilation success) is
  made explicit as oracle inputs, so every function is total and executable.
-/

namespace AwsCrtCFlags

/-- Modelled from the spec: one configuration call recorded against the
external toolchain driver (`cc::Build`), per the toolchain driver contract
(spec section 6: `add_flag`, `add_define`, `add_include`, `set_shared`). -/
inductive ToolOp where
  | flag (s : String)
  | flagIfSupported (s : String)
  | define (key val : String)
  | includeDir (path : String)
  | sharedFlag (b : Bool)
deriving DecidableEq

/-- Modelled from the spec: the external toolchain handle (`cc::Build`),
recorded as the ordered sequence of configuration calls made against it. -/
structure Build where
  ops : List ToolOp := []
deriving DecidableEq

/-- Record one configuration call on the toolchain handle. -/
def Build.push (b : Build) (op : ToolOp) : Build :=
  { ops := b.ops ++ [op] }

/-- `cc::Build::flag`: unconditionally pass a flag. -/
def Build.flag (b : Build) (s : String) : Build :=
  b.push (ToolOp.flag s)

/-- `cc::Build::flag_if_supported`: pass a flag if the compiler accepts it. -/
def Build.flag_if_supported (b : Build) (s : String) : Build :=
  b.push (ToolOp.flagIfSupported s)

/-- `cc::Build::define`. -/
def Build.define (b : Build) (k v : String) : Build :=
  b.push (ToolOp.define k v)

/-- `cc::Build::include`. -/
def Build.includeDir (b : Build) (p : String) : Build :=
  b.push (ToolOp.includeDir p)

/-- `cc::Build::shared_flag`. -/
def Build.shared_flag (b : Build) (x : Bool) : Build :=
  b.push (ToolOp.sharedFlag x)

/-- The non-recursive fields of `CRTModuleBuildInfo`, in source order
(`src/lib.rs` lines 12-27); the recursive `crt_module_deps` field lives in
the wrapping inductive below because Lean structures cannot be recursive. -/
structure CRTModuleFields where
  crt_module_name : String
  private_cflags : List String
  public_cflags : List String
  private_defines : List (String × String)
  public_defines : List (String × String)
  link_targets : List String
  shared_lib : Bool
  lib_name : String
  linker_path : Option String
  include_dirs : List String
  build_toolchain : Build

/-- `CRTModuleBuildInfo` (`src/lib.rs` lines 12-27): one module's build
configuration, with the configurations of its declared dependencies
recursively embedded. -/
inductive CRTModuleBuildInfo where
  | mk (fields : CRTModuleFields) (crt_module_deps : List CRTModuleBuildInfo)

namespace CRTModuleBuildInfo

def fields : CRTModuleBuildInfo → CRTModuleFields
  | .mk f _ => f

def crt_module_deps : CRTModuleBuildInfo → List CRTModuleBuildInfo
  | .mk _ d => d

def crt_module_name (c : CRTModuleBuildInfo) : String := c.fields.crt_module_name
def private_cflags (c : CRTModuleBuildInfo) : List String := c.fields.private_cflags
def public_cflags (c : CRTModuleBuildInfo) : List String := c.fields.public_cflags
def private_defines (c : CRTModuleBuildInfo) : List (String × String) := c.fields.private_defines
def public_defines (c : CRTModuleBuildInfo) : List (String × String) := c.fields.public_defines
def link_targets (c : CRTModuleBuildInfo) : List String := c.fields.link_targets
def shared_lib (c : CRTModuleBuildInfo) : Bool := c.fields.shared_lib
def lib_name (c : CRTModuleBuildInfo) : String := c.fields.lib_name
def linker_path (c : CRTModuleBuildInfo) : Option String := c.fields.linker_path
def include_dirs (c : CRTModuleBuildInfo) : List String := c.fields.include_dirs
def build_toolchain (c : CRTModuleBuildInfo) : Build := c.fields.build_toolchain

/-- Apply an update to the non-recursive fields, keeping the dependency list. -/
def mapFields (g : CRTModuleFields → CRTModuleFields) : CRTModuleBuildInfo → CRTModuleBuildInfo
  | .mk f d => .mk (g f) d

end CRTModuleBuildInfo

open CRTModuleBuildInfo

/-- `CRTModuleBuildInfo::new` (`src/lib.rs` lines 43-58). The source reads the
`OUT_DIR` environment variable for the default `linker_path`; it is passed
here explicitly as `out_dir`. -/
def new (out_dir : String) (module_name : String) : CRTModuleBuildInfo :=
  .mk
    { crt_module_name := module_name
      private_cflags := []
      public_cflags := []
      private_defines := []
      public_defines := []
      link_targets := []
      shared_lib := false
      lib_name := module_name
      linker_path := some out_dir
      include_dirs := []
      build_toolchain := {} }
    []

/-- `add_public_cflag` (`src/lib.rs` lines 104-107). -/
def add_public_cflag (self : CRTModuleBuildInfo) (c_flag : String) : CRTModuleBuildInfo :=
  mapFields (fun f => { f with public_cflags := f.public_cflags ++ [c_flag] }) self

/-- `add_private_cflag` (`src/lib.rs` lines 122-125). -/
def add_private_cflag (self : CRTModuleBuildInfo) (c_flag : String) : CRTModuleBuildInfo :=
  mapFields (fun f => { f with private_cflags := f.private_cflags ++ [c_flag] }) self

/-- `add_private_define` (`src/lib.rs` lines 143-147). -/
def add_private_define (self : CRTModuleBuildInfo) (key val : String) : CRTModuleBuildInfo :=
  mapFields (fun f => { f with private_defines := f.private_defines ++ [(key, val)] }) self

/-- `add_public_define` (`src/lib.rs` lines 165-169). -/
def add_public_define (self : CRTModuleBuildInfo) (key val : String) : CRTModuleBuildInfo :=
  mapFields (fun f => { f with public_defines := f.public_defines ++ [(key, val)] }) self

/-- `add_link_target` (`src/lib.rs` lines 185-188). -/
def add_link_target (self : CRTModuleBuildInfo) (l_flag : String) : CRTModuleBuildInfo :=
  mapFields (fun f => { f with link_targets := f.link_targets ++ [l_flag] }) self

/-- `make_shared_lib` (`src/lib.rs` lines 191-194). -/
def make_shared_lib (self : CRTModuleBuildInfo) : CRTModuleBuildInfo :=
  mapFields (fun f => { f with shared_lib := true }) self

/-- `set_linker_search_path` (`src/lib.rs` lines 212-215). -/
def set_linker_search_path (self : CRTModuleBuildInfo) (path : String) : CRTModuleBuildInfo :=
  mapFields (fun f => { f with linker_path := some path }) self

/-- `add_third_party_include_dir` (`src/lib.rs` lines 234-237). -/
def add_third_party_include_dir (self : CRTModuleBuildInfo) (dir : String) : CRTModuleBuildInfo :=
  mapFields (fun f => { f with include_dirs := f.include_dirs ++ [dir] }) self

/-! ## Serialization and the propagation channel

The source derives `Serialize`/`Deserialize` (serde) on `CRTModuleBuildInfo`
with `#[serde(skip_serializing, skip_deserializing)]` on `build_toolchain`
(`src/lib.rs` lines 12-27); the textual JSON format itself is an external
collaborator (spec section 1). We model the serialized payload structurally:
every field except the toolchain handle, dependencies recursively. -/

/-- Modelled from the spec: the serializable fields of a published
configuration — every field of `CRTModuleFields` except the
`build_toolchain` handle, which carries `skip_serializing, skip_deserializing`. -/
structure SerializedFields where
  crt_module_name : String
  private_cflags : List String
  public_cflags : List String
  private_defines : List (String × String)
  public_defines : List (String × String)
  link_targets : List String
  shared_lib : Bool
  lib_name : String
  linker_path : Option String
  include_dirs : List String

/-- Modelled from the spec: the payload published on the propagation channel —
the complete configuration, dependencies recursively embedded, excluding only
the non-serializable toolchain handle (spec section 6). -/
inductive SerializedModuleBuildInfo where
  | mk (fields : SerializedFields) (deps : List SerializedModuleBuildInfo)

namespace SerializedModuleBuildInfo

def fields : SerializedModuleBuildInfo → SerializedFields
  | .mk f _ => f

def deps : SerializedModuleBuildInfo → List SerializedModuleBuildInfo
  | .mk _ d => d

def private_cflags (p : SerializedModuleBuildInfo) : List String := p.fields.private_cflags
def public_cflags (p : SerializedModuleBuildInfo) : List String := p.fields.public_cflags
def private_defines (p : SerializedModuleBuildInfo) : List (String × String) := p.fields.private_defines
def public_defines (p : SerializedModuleBuildInfo) : List (String × String) := p.fields.public_defines
def include_dirs (p : SerializedModuleBuildInfo) : List String := p.fields.include_dirs

end SerializedModuleBuildInfo

/-- Drop the toolchain handle from the fields (what serde serializes). -/
def dropToolchain (f : CRTModuleFields) : SerializedFields :=
  { crt_module_name := f.crt_module_name
    private_cflags := f.private_cflags
    public_cflags := f.public_cflags
    private_defines := f.private_defines
    public_defines := f.public_defines
    link_targets := f.link_targets
    shared_lib := f.shared_lib
    lib_name := f.lib_name
    linker_path := f.linker_path
    include_dirs := f.include_dirs }

/-- Rebuild the fields from a serialized payload; the skipped toolchain handle
is reconstructed as the default (`Build::default()`), per serde's skip
semantics. -/
def addDefaultToolchain (f : SerializedFields) : CRTModuleFields :=
  { crt_module_name := f.crt_module_name
    private_cflags := f.private_cflags
    public_cflags := f.public_cflags
    private_defines := f.private_defines
    public_defines := f.public_defines
    link_targets := f.link_targets
    shared_lib := f.shared_lib
    lib_name := f.lib_name
    linker_path := f.linker_path
    include_dirs := f.include_dirs
    build_toolchain := {} }

mutual

/-- Modelled from the spec: `serde_json::to_string` on `CRTModuleBuildInfo`,
structurally — all fields except the toolchain handle, dependencies
recursively. -/
def serialize : CRTModuleBuildInfo → SerializedModuleBuildInfo
  | .mk f d => .mk (dropToolchain f) (serializeList d)

def serializeList : List CRTModuleBuildInfo → List SerializedModuleBuildInfo
  | [] => []
  | c :: cs => serialize c :: serializeList cs

end

mutual

/-- Modelled from the spec: `serde_json::from_str` on a well-formed payload —
all serialized fields restored, the skipped toolchain handle defaulted,
dependencies recursively. -/
def deserialize : SerializedModuleBuildInfo → CRTModuleBuildInfo
  | .mk f d => .mk (addDefaultToolchain f) (deserializeList d)

def deserializeList : List SerializedModuleBuildInfo → List CRTModuleBuildInfo
  | [] => []
  | p :: ps => deserialize p :: deserializeList ps

end

mutual

/-- Reset every toolchain handle in a configuration tree to the default:
this is exactly the information lost by a serialize/deserialize round trip. -/
def eraseToolchains : CRTModuleBuildInfo → CRTModuleBuildInfo
  | .mk f d => .mk { f with build_toolchain := {} } (eraseToolchainsList d)

def eraseToolchainsList : List CRTModuleBuildInfo → List CRTModuleBuildInfo
  | [] => []
  | c :: cs => eraseToolchains c :: eraseToolchainsList cs

end

/-- Reset only the top-level toolchain handle, leaving all other fields
(dependencies included) untouched. -/
def eraseTopToolchain : CRTModuleBuildInfo → CRTModuleBuildInfo
  | .mk f d => .mk { f with build_toolchain := {} } d

mutual

/-- Every toolchain handle in the tree (top level included) is the default. -/
def fullyDefaultB : CRTModuleBuildInfo → Bool
  | .mk f d => f.build_toolchain.ops.isEmpty && allFullyDefaultB d

def allFullyDefaultB : List CRTModuleBuildInfo → Bool
  | [] => true
  | c :: cs => fullyDefaultB c && allFullyDefaultB cs

end

/-- Every dependency entry of the configuration (recursively) carries a
default toolchain handle. This holds for every configuration built through
the API: dependency entries are only ever created by `add_module_dependency`,
i.e. by deserialization, which defaults the skipped toolchain handle. -/
def depsDefaultB : CRTModuleBuildInfo → Bool
  | .mk _ d => allFullyDefaultB d

/-- The propagation channel (`std::env` variables in the source): a key-value
store of build-session scope. A stored value is modelled as
`Option SerializedModuleBuildInfo`: `some p` for published text that
deserializes to `p`, `none` for published text that fails to deserialize. -/
def Env : Type := String → Option (Option SerializedModuleBuildInfo)

/-- The channel with no published configurations. -/
def envEmpty : Env := fun _ => none

/-- `env::set_var`: point update of the channel. -/
def envSet (e : Env) (key : String) (v : Option SerializedModuleBuildInfo) : Env :=
  fun q => if q = key then some v else e q

/-- The propagation key derived from a module name:
`"CRT_MODULE_" + name + "BUILD_CFG"` (`src/lib.rs` lines 76 and 464-465). -/
def moduleKey (name : String) : String :=
  "CRT_MODULE_" ++ name ++ "BUILD_CFG"

/-- The fatal condition raised by `add_module_dependency` when the dependency
has no published, deserializable configuration (a panic in the source,
`src/lib.rs` line 88; `UnresolvedDependencyError` in the spec). -/
structure UnresolvedDependencyError where
  dependency : String
deriving DecidableEq

/-- Append a deserialized dependency configuration snapshot
(`self.crt_module_deps.push(...)`, `src/lib.rs` line 83). -/
def pushDep (self : CRTModuleBuildInfo) (d : CRTModuleBuildInfo) : CRTModuleBuildInfo :=
  match self with
  | .mk f deps => .mk f (deps ++ [d])

/-- `add_module_dependency` (`src/lib.rs` lines 75-89): look up the
dependency's published configuration on the propagation channel; on a hit
that deserializes, push the snapshot and return self; otherwise panic
(modelled as `Except.error`). -/
def add_module_dependency (env : Env) (self : CRTModuleBuildInfo) (dependency : String) :
    Except UnresolvedDependencyError CRTModuleBuildInfo :=
  match env (moduleKey dependency) with
  | some (some payload) => .ok (pushDep self (deserialize payload))
  | _ => .error { dependency := dependency }

/-! ## Toolchain environment oracles and `load_to_build` -/

/-- The toolchain-dependent outcomes consulted by `load_to_build`
(`src/lib.rs` lines 361-402), made explicit:
* `isLikeMsvc` — `self.build_toolchain.get_compiler().is_like_msvc()`;
* `gnuCheck` — the result of `is_flag_supported("-Wgnu")`, which in the
  source is a `Result<bool, Error>`: `some b` for `Ok(b)`, `none` for `Err`.
  The source tests `.is_ok()`, i.e. only whether the check completed;
* `htonlCompiles` — whether the network-byte-order-conversion probe snippet
  compiles cleanly (`try_compile(...).is_err()` is its negation). -/
structure ToolchainEnv where
  isLikeMsvc : Bool
  gnuCheck : Option Bool
  htonlCompiles : Bool

/-- The baseline warning/robustness flags installed as private flags by
`load_to_build` (`src/lib.rs` lines 362-382), per compiler family. -/
def defaultPrivateFlags (tenv : ToolchainEnv) : List String :=
  if tenv.isLikeMsvc then
    ["/W4", "/WX", "/MP", "/volatile:iso", "/wd4204", "/wd4221"]
  else
    ["-Wall", "-Werror", "-Wstrict-prototypes", "-fno-omit-frame-pointer",
     "-Wextra", "-pedantic", "-Wno-long-long", "-fPIC"]

/-- The flags installed by the capability probes
(`src/lib.rs` lines 384-402): if `is_flag_supported("-Wgnu")` returned at all
(`is_ok`), enable `-Wgnu` and suppress the zero-variadic-macro sub-warning;
then, only in that case, probe the `htonl` snippet and on failure suppress
the statement-expression warning. -/
def probeFlags (tenv : ToolchainEnv) : List String :=
  if tenv.gnuCheck.isSome then
    ["-Wgnu", "-Wno-gnu-zero-variadic-macro-arguments"] ++
      (if tenv.htonlCompiles then [] else ["-Wno-gnu-statement-expression"])
  else []

/-- Phase one of `load_to_build` (`src/lib.rs` lines 362-382): append the
family-specific baseline flags through `add_private_cflag`, in source order. -/
def applyDefaultFlags (tenv : ToolchainEnv) (self : CRTModuleBuildInfo) : CRTModuleBuildInfo :=
  if tenv.isLikeMsvc then
    add_private_cflag (add_private_cflag (add_private_cflag (add_private_cflag
      (add_private_cflag (add_private_cflag self "/W4") "/WX") "/MP")
      "/volatile:iso") "/wd4204") "/wd4221"
  else
    add_private_cflag (add_private_cflag (add_private_cflag (add_private_cflag
      (add_private_cflag (add_private_cflag (add_private_cflag
      (add_private_cflag self "-Wall") "-Werror") "-Wstrict-prototypes")
      "-fno-omit-frame-pointer") "-Wextra") "-pedantic") "-Wno-long-long") "-fPIC"

/-- Phase two of `load_to_build` (`src/lib.rs` lines 384-402): the capability
probes, appending through `add_private_cflag`, in source order. -/
def applyProbes (tenv : ToolchainEnv) (self : CRTModuleBuildInfo) : CRTModuleBuildInfo :=
  if tenv.gnuCheck.isSome then
    let self := add_private_cflag (add_private_cflag self "-Wgnu")
      "-Wno-gnu-zero-variadic-macro-arguments"
    if tenv.htonlCompiles then self
    else add_private_cflag self "-Wno-gnu-statement-expression"
  else self

/-- `load_to_build` (`src/lib.rs` lines 361-444): install baseline and probe
flags as private flags, then replay the configuration onto the toolchain
handle: public flags (`flag_if_supported`), private flags
(`flag_if_supported`), public defines, private defines, include directories,
then for each dependency its public flags (`flag`) followed — as the source
is written, iterating `self` rather than `module` — by this module's own
public defines and include directories again, and finally the shared flag. -/
def load_to_build (tenv : ToolchainEnv) (self : CRTModuleBuildInfo) : CRTModuleBuildInfo :=
  let self := applyProbes tenv (applyDefaultFlags tenv self)
  let tc := self.public_cflags.foldl (fun b f => b.flag_if_supported f) self.build_toolchain
  let tc := self.private_cflags.foldl (fun b f => b.flag_if_supported f) tc
  let tc := self.public_defines.foldl (fun b kv => b.define kv.1 kv.2) tc
  let tc := self.private_defines.foldl (fun b kv => b.define kv.1 kv.2) tc
  let tc := self.include_dirs.foldl (fun b p => b.includeDir p) tc
  let tc := self.crt_module_deps.foldl
    (fun b m =>
      let b := m.public_cflags.foldl (fun b f => b.flag f) b
      let b := self.public_defines.foldl (fun b kv => b.define kv.1 kv.2) b
      self.include_dirs.foldl (fun b p => b.includeDir p) b)
    tc
  let tc := if self.shared_lib then tc.shared_flag true else tc
  mapFields (fun f => { f with build_toolchain := tc }) self

/-- The toolchain calls contributed by one entry of the dependency loop of
`load_to_build` (`src/lib.rs` lines 426-439): the dependency's public flags,
then — because the two inner loops iterate `self`, not `module` — the
consuming module's own public defines and include directories once more. -/
def depContribution (self m : CRTModuleBuildInfo) : List ToolOp :=
  m.public_cflags.map ToolOp.flag ++
    self.public_defines.map (fun kv => ToolOp.define kv.1 kv.2) ++
    self.include_dirs.map ToolOp.includeDir

/-- The full ordered sequence of toolchain calls issued by `load_to_build`,
written out as one list expression. -/
def mergedOps (tenv : ToolchainEnv) (cfg : CRTModuleBuildInfo) : List ToolOp :=
  cfg.public_cflags.map ToolOp.flagIfSupported ++
    (cfg.private_cflags ++ defaultPrivateFlags tenv ++ probeFlags tenv).map
      ToolOp.flagIfSupported ++
    cfg.public_defines.map (fun kv => ToolOp.define kv.1 kv.2) ++
    cfg.private_defines.map (fun kv => ToolOp.define kv.1 kv.2) ++
    cfg.include_dirs.map ToolOp.includeDir ++
    (cfg.crt_module_deps.map (fun m => depContribution cfg m)).flatten ++
    (if cfg.shared_lib then [ToolOp.sharedFlag true] else [])

/-- The fatal condition raised when the toolchain driver reports a
compilation failure (a panic inside `cc::Build::compile` in the source;
`CompilationError` in the spec). -/
structure CompilationError where
  lib_name : String
deriving DecidableEq

/-- `run_build` (`src/lib.rs` lines 447-468): run `load_to_build`, invoke the
toolchain driver's compilation (outcome supplied by the `compileOk` oracle;
a failure panics inside `compile` and aborts the build step before anything
is published), then publish the serialized configuration on the propagation
channel under the module's key. The `print!` of the serialized configuration
at line 449 goes to the build step's stdout, not to the channel. Returns the
final configuration (or the error) together with the channel state. -/
def run_build (tenv : ToolchainEnv) (compileOk : Bool) (env : Env)
    (self : CRTModuleBuildInfo) :
    Except CompilationError CRTModuleBuildInfo × Env :=
  let self := load_to_build tenv self
  if compileOk then
    (.ok self, envSet env (moduleKey self.crt_module_name) (some (serialize self)))
  else
    (.error { lib_name := self.lib_name }, env)

/-! ## `try_compile` with explicit filesystem outcomes -/

/-- The outcomes of the filesystem-touching steps of `try_compile`
(`src/lib.rs` lines 339-359), in the order the source performs them:
`Gag::stdout().unwrap()`, `fs::create_dir_all(...).expect(...)`,
`fs::write(...).expect(...)`, the scratch compilation itself, and
`fs::remove_dir_all(...).expect(...)`. -/
structure TryCompileFS where
  gagOk : Bool
  createOk : Bool
  writeOk : Bool
  snippetCompiles : Bool
  removeOk : Bool

/-- How one call of `try_compile` ends: either the `Result` handed back to
the caller (`res true` for `Ok`, `res false` for a `cc::Error`), or a panic
raised out of the function by one of the `unwrap`/`expect` calls. -/
inductive TryCompileOutcome where
  | res (ok : Bool)
  | panicked (step : String)
deriving DecidableEq

/-- `try_compile` (`src/lib.rs` lines 339-359), straight-line as in the
source: suppress stdout, make a fresh toolchain, create the scratch output
directory, write the snippet, attempt the compilation, remove the scratch
directory, return the compilation result. Each filesystem failure panics at
that point. The second component reports whether the scratch directory still
exists when the call ends. -/
def try_compile (fs : TryCompileFS) : TryCompileOutcome × Bool :=
  if !fs.gagOk then (.panicked "gag stdout", false)
  else if !fs.createOk then (.panicked "creation of try compile directory failed", false)
  else if !fs.writeOk then (.panicked "File write failed", true)
  else if !fs.removeOk then (.panicked "Cleanup of try compile step failed", true)
  else (.res fs.snippetCompiles, false)

/-! ## Concrete fixtures used by counterexamples and witnesses -/

/-- A POSIX-style toolchain on which the GNU-warning support check errors and
the probe snippet compiles. -/
def tenvP : ToolchainEnv := { isLikeMsvc := false, gnuCheck := none, htonlCompiles := true }

/-- A POSIX-style toolchain on which the GNU-warning support check errors and
the probe snippet does NOT compile. -/
def tenvNoGnu : ToolchainEnv :=
  { isLikeMsvc := false, gnuCheck := none, htonlCompiles := false }

/-- A POSIX-style toolchain on which the GNU-warning support check completes
and the probe snippet does not compile. -/
def tenvGnuW : ToolchainEnv :=
  { isLikeMsvc := false, gnuCheck := some true, htonlCompiles := false }

/-- A dependency module configuration with one public flag, one public
define, one include directory, and private settings of each kind. -/
def depD : CRTModuleBuildInfo :=
  .mk
    { crt_module_name := "d"
      private_cflags := ["-dp"]
      public_cflags := ["-fd"]
      private_defines := [("DP", "1")]
      public_defines := [("COMMON_VERSION", "2")]
      link_targets := []
      shared_lib := false
      lib_name := "d"
      linker_path := none
      include_dirs := ["dinc"]
      build_toolchain := {} }
    []

/-- A module depending on `depD`, with one public define and one include
directory of its own. -/
def modM : CRTModuleBuildInfo :=
  .mk
    { crt_module_name := "m"
      private_cflags := []
      public_cflags := []
      private_defines := []
      public_defines := [("M_DEF", "1")]
      link_targets := []
      shared_lib := false
      lib_name := "m"
      linker_path := none
      include_dirs := ["minc"]
      build_toolchain := {} }
    [depD]

/-- Module C of the three-module chain: one public flag. -/
def chainC : CRTModuleBuildInfo := add_public_cflag (new "o" "C") "-fc"

/-- The channel after C's build step published. -/
def envAfterC : Env := (run_build tenvP true envEmpty chainC).2

/-- Module B of the chain, declaring its dependency on C. -/
def chainB : CRTModuleBuildInfo :=
  (add_module_dependency envAfterC (new "o" "B") "C").toOption.getD (new "o" "B")

/-- The channel after B's build step published. -/
def envAfterB : Env := (run_build tenvP true envAfterC chainB).2

/-- Module A of the chain, declaring its dependency on B only. -/
def chainA : CRTModuleBuildInfo :=
  (add_module_dependency envAfterB (new "o" "A") "B").toOption.getD (new "o" "A")

/-- A module with one private flag, one public flag, one private define and
one public define, to exhibit the application order. -/
def cfg3 : CRTModuleBuildInfo :=
  .mk
    { crt_module_name := "t3"
      private_cflags := ["-P"]
      public_cflags := ["-Q"]
      private_defines := [("PR", "2")]
      public_defines := [("PU", "1")]
      link_targets := []
      shared_lib := false
      lib_name := "t3"
      linker_path := none
      include_dirs := []
      build_toolchain := {} }
    []

/-- A dependency with one public flag, used to witness the one-hop rule. -/
def c2wDep : CRTModuleBuildInfo :=
  .mk
    { crt_module_name := "wd"
      private_cflags := []
      public_cflags := ["-fw"]
      private_defines := []
      public_defines := []
      link_targets := []
      shared_lib := false
      lib_name := "wd"
      linker_path := none
      include_dirs := []
      build_toolchain := {} }
    []

/-- A module whose only dependency is `c2wDep`. -/
def c2wCfg : CRTModuleBuildInfo :=
  .mk
    { crt_module_name := "wm"
      private_cflags := []
      public_cflags := []
      private_defines := []
      public_defines := []
      link_targets := []
      shared_lib := false
      lib_name := "wm"
      linker_path := none
      include_dirs := []
      build_toolchain := {} }
    [c2wDep]

/-- A channel holding one well-formed published configuration (under the key
for "pub") and one payload that does not deserialize (under the key for
"bad"). -/
def env4 : Env :=
  envSet (envSet envEmpty (moduleKey "pub") (some (serialize (new "o" "pub"))))
    (moduleKey "bad") none

/-- A configuration with recorded toolchain calls at the top level and one
dependency snapshot carrying a default toolchain handle. -/
def cfg9 : CRTModuleBuildInfo :=
  .mk
    { crt_module_name := "m9"
      private_cflags := ["-p9"]
      public_cflags := ["-f9"]
      private_defines := [("K9", "V9")]
      public_defines := [("P9", "W9")]
      link_targets := ["l9"]
      shared_lib := true
      lib_name := "lib9"
      linker_path := some "o9"
      include_dirs := ["i9"]
      build_toolchain := { ops := [ToolOp.flag "-x9"] } }
    [new "o" "d9"]

/-! ## Helper lemmas shared by the claim theorems -/

namespace CRTModuleBuildInfo

@[simp] theorem fields_mk (f : CRTModuleFields) (d : List CRTModuleBuildInfo) :
    fields (.mk f d) = f := rfl

@[simp] theorem deps_mk (f : CRTModuleFields) (d : List CRTModuleBuildInfo) :
    crt_module_deps (.mk f d) = d := rfl

@[simp] theorem mapFields_mk (g : CRTModuleFields → CRTModuleFields)
    (f : CRTModuleFields) (d : List CRTModuleBuildInfo) :
    mapFields g (.mk f d) = .mk (g f) d := rfl

@[simp] theorem crt_module_name_mk (f : CRTModuleFields) (d : List CRTModuleBuildInfo) :
    crt_module_name (.mk f d) = f.crt_module_name := rfl

@[simp] theorem private_cflags_mk (f : CRTModuleFields) (d : List CRTModuleBuildInfo) :
    private_cflags (.mk f d) = f.private_cflags := rfl

@[simp] theorem public_cflags_mk (f : CRTModuleFields) (d : List CRTModuleBuildInfo) :
    public_cflags (.mk f d) = f.public_cflags := rfl

@[simp] theorem private_defines_mk (f : CRTModuleFields) (d : List CRTModuleBuildInfo) :
    private_defines (.mk f d) = f.private_defines := rfl

@[simp] theorem public_defines_mk (f : CRTModuleFields) (d : List CRTModuleBuildInfo) :
    public_defines (.mk f d) = f.public_defines := rfl

@[simp] theorem link_targets_mk (f : CRTModuleFields) (d : List CRTModuleBuildInfo) :
    link_targets (.mk f d) = f.link_targets := rfl

@[simp] theorem shared_lib_mk (f : CRTModuleFields) (d : List CRTModuleBuildInfo) :
    shared_lib (.mk f d) = f.shared_lib := rfl

@[simp] theorem lib_name_mk (f : CRTModuleFields) (d : List CRTModuleBuildInfo) :
    lib_name (.mk f d) = f.lib_name := rfl

@[simp] theorem linker_path_mk (f : CRTModuleFields) (d : List CRTModuleBuildInfo) :
    linker_path (.mk f d) = f.linker_path := rfl

@[simp] theorem include_dirs_mk (f : CRTModuleFields) (d : List CRTModuleBuildInfo) :
    include_dirs (.mk f d) = f.include_dirs := rfl

@[simp] theorem build_toolchain_mk (f : CRTModuleFields) (d : List CRTModuleBuildInfo) :
    build_toolchain (.mk f d) = f.build_toolchain := rfl

end CRTModuleBuildInfo

theorem foldl_push_ops {α : Type} (g : α → ToolOp) (xs : List α) (b : Build) :
    (xs.foldl (fun acc x => acc.push (g x)) b).ops = b.ops ++ xs.map g := by
  induction xs generalizing b with
  | nil => simp
  | cons x xs ih =>
      rw [List.foldl_cons, ih]
      simp [Build.push]

theorem foldl_fis_ops (xs : List String) (b : Build) :
    (xs.foldl (fun acc s => acc.flag_if_supported s) b).ops =
      b.ops ++ xs.map ToolOp.flagIfSupported := by
  simpa [Build.flag_if_supported] using
    foldl_push_ops (fun s => ToolOp.flagIfSupported s) xs b

theorem foldl_flag_ops (xs : List String) (b : Build) :
    (xs.foldl (fun acc s => acc.flag s) b).ops = b.ops ++ xs.map ToolOp.flag := by
  simpa [Build.flag] using foldl_push_ops (fun s => ToolOp.flag s) xs b

theorem foldl_define_ops (xs : List (String × String)) (b : Build) :
    (xs.foldl (fun acc kv => acc.define kv.1 kv.2) b).ops =
      b.ops ++ xs.map (fun kv => ToolOp.define kv.1 kv.2) := by
  simpa [Build.define] using
    foldl_push_ops (fun kv : String × String => ToolOp.define kv.1 kv.2) xs b

theorem foldl_include_ops (xs : List String) (b : Build) :
    (xs.foldl (fun acc p => acc.includeDir p) b).ops =
      b.ops ++ xs.map ToolOp.includeDir := by
  simpa [Build.includeDir] using foldl_push_ops (fun p => ToolOp.includeDir p) xs b

theorem foldl_depLoop_ops (pubdefs : List (String × String)) (incs : List String)
    (ms : List CRTModuleBuildInfo) (b : Build) :
    (ms.foldl (fun b m =>
        incs.foldl (fun b p => b.includeDir p)
          (pubdefs.foldl (fun b kv => b.define kv.1 kv.2)
            (m.public_cflags.foldl (fun b f => b.flag f) b))) b).ops =
      b.ops ++ (ms.map (fun m => m.public_cflags.map ToolOp.flag ++
        pubdefs.map (fun kv => ToolOp.define kv.1 kv.2) ++
        incs.map ToolOp.includeDir)).flatten := by
  induction ms generalizing b with
  | nil => simp
  | cons m ms ih =>
      simp [ih, foldl_include_ops, foldl_define_ops, foldl_flag_ops]

theorem applyDefaultFlags_eq (tenv : ToolchainEnv) (c : CRTModuleBuildInfo) :
    applyDefaultFlags tenv c =
      mapFields (fun f =>
        { f with private_cflags := f.private_cflags ++ defaultPrivateFlags tenv }) c := by
  obtain ⟨f, d⟩ := c
  cases h : tenv.isLikeMsvc <;>
    simp [applyDefaultFlags, add_private_cflag, defaultPrivateFlags, h]

theorem applyProbes_eq (tenv : ToolchainEnv) (c : CRTModuleBuildInfo) :
    applyProbes tenv c =
      mapFields (fun f =>
        { f with private_cflags := f.private_cflags ++ probeFlags tenv }) c := by
  obtain ⟨f, d⟩ := c
  cases hg : tenv.gnuCheck.isSome <;> cases hh : tenv.htonlCompiles <;>
    simp [applyProbes, add_private_cflag, probeFlags, hg, hh]

/-- The toolchain calls issued by `load_to_build`, appended to whatever was
already recorded, are exactly `mergedOps`. -/
theorem load_to_build_ops (tenv : ToolchainEnv) (c : CRTModuleBuildInfo) :
    (load_to_build tenv c).build_toolchain.ops =
      c.build_toolchain.ops ++ mergedOps tenv c := by
  obtain ⟨f, d⟩ := c
  simp only [load_to_build, applyProbes_eq, applyDefaultFlags_eq, mapFields_mk,
    public_cflags_mk, private_cflags_mk, public_defines_mk, private_defines_mk,
    include_dirs_mk, build_toolchain_mk, shared_lib_mk, deps_mk]
  cases hs : f.shared_lib <;>
    simp [mergedOps, depContribution, foldl_fis_ops, foldl_define_ops,
      foldl_include_ops, foldl_depLoop_ops, Build.shared_flag, Build.push, hs]

/-- The private flag list after `load_to_build`. -/
theorem load_to_build_private (tenv : ToolchainEnv) (c : CRTModuleBuildInfo) :
    (load_to_build tenv c).private_cflags =
      c.private_cflags ++ defaultPrivateFlags tenv ++ probeFlags tenv := by
  obtain ⟨f, d⟩ := c
  simp [load_to_build, applyProbes_eq, applyDefaultFlags_eq]

/-- `load_to_build` does not change the module name. -/
theorem load_to_build_name (tenv : ToolchainEnv) (c : CRTModuleBuildInfo) :
    (load_to_build tenv c).crt_module_name = c.crt_module_name := by
  obtain ⟨f, d⟩ := c
  simp [load_to_build, applyProbes_eq, applyDefaultFlags_eq]

/-- `load_to_build` does not change the dependency list. -/
theorem load_to_build_deps (tenv : ToolchainEnv) (c : CRTModuleBuildInfo) :
    (load_to_build tenv c).crt_module_deps = c.crt_module_deps := by
  obtain ⟨f, d⟩ := c
  simp [load_to_build, applyProbes_eq, applyDefaultFlags_eq]

theorem addDefault_dropToolchain (f : CRTModuleFields) :
    addDefaultToolchain (dropToolchain f) = { f with build_toolchain := {} } := rfl

mutual

theorem deserialize_serialize : ∀ c : CRTModuleBuildInfo,
    deserialize (serialize c) = eraseToolchains c
  | .mk f d => by
      rw [serialize, deserialize, eraseToolchains, deserializeList_serializeList d,
        addDefault_dropToolchain]

theorem deserializeList_serializeList : ∀ l : List CRTModuleBuildInfo,
    deserializeList (serializeList l) = eraseToolchainsList l
  | [] => by rw [serializeList, deserializeList, eraseToolchainsList]
  | c :: cs => by
      rw [serializeList, deserializeList, eraseToolchainsList,
        deserialize_serialize c, deserializeList_serializeList cs]

end

theorem Build.eq_default_of_isEmpty {b : Build} (h : b.ops.isEmpty = true) :
    b = {} := by
  cases b with
  | mk ops => simp_all [List.isEmpty_iff]

mutual

theorem eraseToolchains_eq_self : ∀ c : CRTModuleBuildInfo,
    fullyDefaultB c = true → eraseToolchains c = c
  | .mk f d => by
      intro h
      rw [fullyDefaultB, Bool.and_eq_true] at h
      have hb : f.build_toolchain = {} := Build.eq_default_of_isEmpty h.1
      rw [eraseToolchains, eraseToolchainsList_eq_self d h.2, ← hb]

theorem eraseToolchainsList_eq_self : ∀ l : List CRTModuleBuildInfo,
    allFullyDefaultB l = true → eraseToolchainsList l = l
  | [] => by intro; rw [eraseToolchainsList]
  | c :: cs => by
      intro h
      rw [allFullyDefaultB, Bool.and_eq_true] at h
      rw [eraseToolchainsList, eraseToolchains_eq_self c h.1,
        eraseToolchainsList_eq_self cs h.2]

end

/-! ## Claim theorems -/

/-- C1: the claim says the toolchain invocation for a module M includes every
public flag, every public define, and every include directory of each
dependency Di, and none of Di's private flags or defines. Evaluating
`load_to_build` at the failing input `modM` (one dependency `depD` with a
public define, a public flag, and an include directory) shows the code
applies the dependency's public FLAG but drops the dependency's public
DEFINE and INCLUDE DIRECTORY — the dependency loop at `src/lib.rs` lines
431-438 iterates `self.public_defines` and `self.include_dirs` instead of
`module`'s, re-applying M's own define a second time instead. Private
settings of the dependency are indeed never applied. This contradicts the
source's own doc comment on `add_public_define` (lines 149-150), which
guarantees transitive application. -/
theorem c1_dep_public_define_and_include_dropped :
    ToolOp.flag "-fd" ∈ (load_to_build tenvP modM).build_toolchain.ops ∧
    ToolOp.define "COMMON_VERSION" "2" ∉ (load_to_build tenvP modM).build_toolchain.ops ∧
    ToolOp.includeDir "dinc" ∉ (load_to_build tenvP modM).build_toolchain.ops ∧
    ToolOp.flag "-dp" ∉ (load_to_build tenvP modM).build_toolchain.ops ∧
    ToolOp.flagIfSupported "-dp" ∉ (load_to_build tenvP modM).build_toolchain.ops ∧
    ToolOp.define "DP" "1" ∉ (load_to_build tenvP modM).build_toolchain.ops ∧
    (load_to_build tenvP modM).build_toolchain.ops.count (ToolOp.define "M_DEF" "1") = 2 ∧
    (load_to_build tenvP modM).build_toolchain.ops.count (ToolOp.includeDir "minc") = 2 := by
  decide

/-- C3 (counterexample): the claim says the merge applies private flags
before public flags and private defines before public defines. On `cfg3`
(private flag `-P`, public flag `-Q`, private define `PR`, public define
`PU`) the recorded invocation applies the PUBLIC flag first
(`src/lib.rs` lines 404-410) and the PUBLIC define first (lines 412-420),
refuting the claimed order. -/
theorem c3_counterexample_public_applied_first :
    (load_to_build tenvP cfg3).build_toolchain.ops =
      [ToolOp.flagIfSupported "-Q", ToolOp.flagIfSupported "-P",
       ToolOp.flagIfSupported "-Wall", ToolOp.flagIfSupported "-Werror",
       ToolOp.flagIfSupported "-Wstrict-prototypes",
       ToolOp.flagIfSupported "-fno-omit-frame-pointer",
       ToolOp.flagIfSupported "-Wextra", ToolOp.flagIfSupported "-pedantic",
       ToolOp.flagIfSupported "-Wno-long-long", ToolOp.flagIfSupported "-fPIC",
       ToolOp.define "PU" "1", ToolOp.define "PR" "2"] ∧
    (load_to_build tenvP cfg3).build_toolchain.ops.indexOf
        (ToolOp.flagIfSupported "-Q") <
      (load_to_build tenvP cfg3).build_toolchain.ops.indexOf
        (ToolOp.flagIfSupported "-P") ∧
    (load_to_build tenvP cfg3).build_toolchain.ops.indexOf (ToolOp.define "PU" "1") <
      (load_to_build tenvP cfg3).build_toolchain.ops.indexOf (ToolOp.define "PR" "2") := by
  decide

/-- C3 (amended): the merge step applies, in order: the module's public
flags, then its private flags (the baseline and probe flags having been
appended to the private sequence first), then its public defines, then its
private defines, then its include directories, then for each dependency in
declaration order the dependency's public flags followed by the module's own
public defines and include directories once more, and finally the shared
flag; within each sequence insertion order is preserved. This is exactly
`mergedOps`. -/
theorem c3_amended_merge_order (tenv : ToolchainEnv) (c : CRTModuleBuildInfo) :
    (load_to_build tenv c).build_toolchain.ops =
      c.build_toolchain.ops ++ mergedOps tenv c :=
  load_to_build_ops tenv c

/-- C6 (counterexample): the claim says each probe's outcome alone decides
its flag. On a toolchain where the GNU-warning support check errors
(`gnuCheck = none`) while the network-byte-order snippet does NOT compile
(`htonlCompiles = false`), the statement-expression suppression flag is NOT
enabled even though its probe failed: the snippet probe is nested inside the
support-check branch (`src/lib.rs` lines 384-402), so the probes are not
independent. -/
theorem c6_counterexample_probes_not_independent :
    tenvNoGnu.htonlCompiles = false ∧
    "-Wno-gnu-statement-expression" ∉ (load_to_build tenvNoGnu (new "o" "m6")).private_cflags ∧
    ToolOp.flagIfSupported "-Wno-gnu-statement-expression" ∉
      (load_to_build tenvNoGnu (new "o" "m6")).build_toolchain.ops := by
  decide

/-- C7 (counterexample): the claim says `try_compile` never raises and
removes its scratch directory on every exit path. When the write of the
snippet file fails (`fs::write(...).expect(...)`, `src/lib.rs` line 354),
the function panics out of the call and the already-created scratch
directory is left behind: there is no scoped cleanup guard. -/
theorem c7_counterexample_panic_leaves_scratch_dir :
    try_compile
        { gagOk := true, createOk := true, writeOk := false,
          snippetCompiles := true, removeOk := true } =
      (TryCompileOutcome.panicked "File write failed", true) := by
  decide

/-- C7 (amended): when every filesystem operation involved succeeds,
`try_compile` returns only the success/failure outcome of compiling the
snippet — a compilation failure is returned, never raised — and the scratch
directory is removed whether or not the snippet compiled. A failing
filesystem operation, however, panics out of the function, and a failure
after the scratch directory was created leaves the directory behind. -/
theorem c7_amended_cleanup_when_fs_ok (fs : TryCompileFS)
    (h1 : fs.gagOk = true) (h2 : fs.createOk = true)
    (h3 : fs.writeOk = true) (h4 : fs.removeOk = true) :
    try_compile fs = (TryCompileOutcome.res fs.snippetCompiles, false) := by
  simp [try_compile, h1, h2, h3, h4]

/-- Witness for `c7_amended_cleanup_when_fs_ok` at a concrete input whose
snippet does not compile. -/
theorem c7_amended_witness :
    try_compile
        { gagOk := true, createOk := true, writeOk := true,
          snippetCompiles := false, removeOk := true } =
      (TryCompileOutcome.res false, false) :=
  c7_amended_cleanup_when_fs_ok
    { gagOk := true, createOk := true, writeOk := true,
      snippetCompiles := false, removeOk := true } rfl rfl rfl rfl

/-- C2 (counterexample): run the protocol for the chain A -> B -> C
concretely. C publishes its configuration with public flag `-fc`; B's build
applies it and B's published payload embeds C's snapshot; but A's toolchain
invocation does not receive `-fc` in any form: B's own public flag list is
empty — C's public settings are never merged into it — and the dependency
loop does not recurse into embedded snapshots. -/
theorem c2_counterexample_no_two_level_propagation :
    (add_module_dependency envAfterC (new "o" "B") "C").toOption.isSome = true ∧
    (add_module_dependency envAfterB (new "o" "A") "B").toOption.isSome = true ∧
    ToolOp.flag "-fc" ∈ (load_to_build tenvP chainB).build_toolchain.ops ∧
    (chainA.crt_module_deps.map (fun m => m.public_cflags)) = [[]] ∧
    (chainA.crt_module_deps.map
      (fun m => m.crt_module_deps.map (fun e => e.public_cflags))) = [[["-fc"]]] ∧
    ToolOp.flag "-fc" ∉ (load_to_build tenvP chainA).build_toolchain.ops ∧
    ToolOp.flagIfSupported "-fc" ∉ (load_to_build tenvP chainA).build_toolchain.ops := by
  decide

/-- C2 (amended): visibility is strictly one hop. An unconditional `flag`
call reaches a module's toolchain invocation exactly for the public flags of
its DIRECT dependencies; the public settings of a dependency's dependency
are never applied (they survive only as data inside the embedded snapshot,
as the counterexample shows, because nothing merges them into the
dependency's own public lists and the dependency loop does not recurse). -/
theorem c2_amended_one_hop_visibility (tenv : ToolchainEnv) (c : CRTModuleBuildInfo)
    (s : String) (h : c.build_toolchain.ops = []) :
    ToolOp.flag s ∈ (load_to_build tenv c).build_toolchain.ops ↔
      ∃ m, m ∈ c.crt_module_deps ∧ s ∈ m.public_cflags := by
  rw [load_to_build_ops, h]
  cases hs : c.shared_lib <;>
    simp [mergedOps, depContribution, hs, List.mem_flatten]

/-- Witness for `c2_amended_one_hop_visibility`: the public flag `-fw` of the
direct dependency `c2wDep` is applied to `c2wCfg`'s invocation. -/
theorem c2_amended_witness :
    ToolOp.flag "-fw" ∈ (load_to_build tenvP c2wCfg).build_toolchain.ops :=
  (c2_amended_one_hop_visibility tenvP c2wCfg "-fw" rfl).mpr
    ⟨c2wDep, List.mem_cons_self c2wDep [], by decide⟩

/-- C4: `add_module_dependency` fails with the unresolved-dependency error
exactly when the propagation channel has nothing published under the
dependency's key or the published payload does not deserialize; when a
deserializable payload is published, it returns the configuration with the
deserialized snapshot appended to the dependency sequence — never a silent
empty configuration. -/
theorem c4_add_module_dependency_spec (env : Env) (dep : String)
    (c : CRTModuleBuildInfo) :
    (add_module_dependency env c dep = .error { dependency := dep } ↔
      env (moduleKey dep) = none ∨ env (moduleKey dep) = some none) ∧
    (∀ p, env (moduleKey dep) = some (some p) →
      add_module_dependency env c dep = .ok (pushDep c (deserialize p)) ∧
      (pushDep c (deserialize p)).crt_module_deps =
        c.crt_module_deps ++ [deserialize p]) := by
  constructor
  · cases henv : env (moduleKey dep) with
    | none => simp [add_module_dependency, henv]
    | some v =>
        cases v with
        | none => simp [add_module_dependency, henv]
        | some p => simp [add_module_dependency, henv]
  · intro p hp
    obtain ⟨f, d⟩ := c
    simp [add_module_dependency, hp, pushDep]

/-- Witness for `c4_add_module_dependency_spec`: on the concrete channel
`env4`, declaring a dependency on the published module "pub" appends its
deserialized snapshot. -/
theorem c4_witness :
    add_module_dependency env4 (new "o" "m4") "pub" =
      .ok (pushDep (new "o" "m4") (deserialize (serialize (new "o" "pub")))) :=
  ((c4_add_module_dependency_spec env4 "pub" (new "o" "m4")).2
    (serialize (new "o" "pub")) rfl).1

/-- C5: `run_build` publishes the serialized configuration on the
propagation channel exactly once — at the module's own key, leaving every
other key untouched — and only when the toolchain compilation succeeded; on
a compilation failure the build step aborts with the compilation error and
the channel is unchanged. -/
theorem c5_publish_after_successful_compile (tenv : ToolchainEnv)
    (compileOk : Bool) (env : Env) (c : CRTModuleBuildInfo) :
    (compileOk = true →
      (run_build tenv compileOk env c).1 = .ok (load_to_build tenv c) ∧
      (run_build tenv compileOk env c).2 (moduleKey c.crt_module_name) =
        some (some (serialize (load_to_build tenv c))) ∧
      ∀ k, k ≠ moduleKey c.crt_module_name →
        (run_build tenv compileOk env c).2 k = env k) ∧
    (compileOk = false →
      (run_build tenv compileOk env c).1 =
        .error { lib_name := (load_to_build tenv c).lib_name } ∧
      (run_build tenv compileOk env c).2 = env) := by
  constructor
  · intro hc
    subst hc
    refine ⟨rfl, ?_, ?_⟩
    · simp [run_build, envSet, load_to_build_name]
    · intro k hk
      simp [run_build, envSet, load_to_build_name, hk]
  · intro hc
    subst hc
    exact ⟨rfl, rfl⟩

/-- Witness for `c5_publish_after_successful_compile` at a concrete module:
a successful build publishes under the module key; a failed build leaves the
channel empty. -/
theorem c5_witness :
    (run_build tenvP true envEmpty cfg3).2 (moduleKey cfg3.crt_module_name) =
      some (some (serialize (load_to_build tenvP cfg3))) ∧
    (run_build tenvP false envEmpty cfg3).2 = envEmpty :=
  ⟨((c5_publish_after_successful_compile tenvP true envEmpty cfg3).1 rfl).2.1,
    ((c5_publish_after_successful_compile tenvP false envEmpty cfg3).2 rfl).2⟩

/-- C6 (amended): the probes are nested, not independent. The GNU-extension
warning flag is enabled exactly when the support check completes (the source
tests `is_ok` on the `Result`, i.e. that the check ran, not the reported
support); the statement-expression suppression flag is enabled exactly when
the support check completes AND the network-byte-order snippet fails to
compile. A failing probe never aborts the build — `load_to_build` is total
in the probe outcomes. -/
theorem c6_amended_probe_nesting (tenv : ToolchainEnv) (c : CRTModuleBuildInfo)
    (h1 : "-Wgnu" ∉ c.private_cflags)
    (h2 : "-Wno-gnu-statement-expression" ∉ c.private_cflags) :
    ("-Wgnu" ∈ (load_to_build tenv c).private_cflags ↔
      tenv.gnuCheck.isSome = true) ∧
    ("-Wno-gnu-statement-expression" ∈ (load_to_build tenv c).private_cflags ↔
      (tenv.gnuCheck.isSome = true ∧ tenv.htonlCompiles = false)) := by
  obtain ⟨msvc, gnu, htonl⟩ := tenv
  simp only [load_to_build_private, List.mem_append]
  cases msvc <;> cases gnu <;> cases htonl <;>
    simp [defaultPrivateFlags, probeFlags, h1, h2]

/-- Witness for `c6_amended_probe_nesting` on a toolchain whose support
check completes and whose snippet fails to compile. -/
theorem c6_amended_witness :
    ("-Wgnu" ∈ (load_to_build tenvGnuW (new "o" "w6")).private_cflags ↔
      tenvGnuW.gnuCheck.isSome = true) ∧
    ("-Wno-gnu-statement-expression" ∈
        (load_to_build tenvGnuW (new "o" "w6")).private_cflags ↔
      (tenvGnuW.gnuCheck.isSome = true ∧ tenvGnuW.htonlCompiles = false)) :=
  c6_amended_probe_nesting tenvGnuW (new "o" "w6") (by decide) (by decide)

/-- C8: each accumulator appends exactly its argument to the corresponding
sequence (or sets the corresponding field) and leaves every other field —
the module name, the dependency list, and the toolchain handle included —
unchanged, preserving insertion order; each returns the configuration for
fluent chaining. Stated on an arbitrary configuration `.mk f d` so that the
right-hand sides exhibit every untouched field explicitly. -/
theorem c8_accumulators_pure_appends (f : CRTModuleFields)
    (d : List CRTModuleBuildInfo) (s k v l dir p : String)
    (_hs : s ≠ "") (_hk : k ≠ "") (_hv : v ≠ "") (_hl : l ≠ "")
    (_hdir : dir ≠ "") (_hp : p ≠ "") :
    add_public_cflag (.mk f d) s =
      .mk { f with public_cflags := f.public_cflags ++ [s] } d ∧
    add_private_cflag (.mk f d) s =
      .mk { f with private_cflags := f.private_cflags ++ [s] } d ∧
    add_public_define (.mk f d) k v =
      .mk { f with public_defines := f.public_defines ++ [(k, v)] } d ∧
    add_private_define (.mk f d) k v =
      .mk { f with private_defines := f.private_defines ++ [(k, v)] } d ∧
    add_link_target (.mk f d) l =
      .mk { f with link_targets := f.link_targets ++ [l] } d ∧
    add_third_party_include_dir (.mk f d) dir =
      .mk { f with include_dirs := f.include_dirs ++ [dir] } d ∧
    make_shared_lib (.mk f d) = .mk { f with shared_lib := true } d ∧
    set_linker_search_path (.mk f d) p = .mk { f with linker_path := some p } d :=
  ⟨rfl, rfl, rfl, rfl, rfl, rfl, rfl, rfl⟩

/-- Witness for `c8_accumulators_pure_appends` at a concrete configuration
and concrete non-empty arguments. -/
theorem c8_witness :
    add_public_cflag (.mk (new "o" "m8").fields []) "-fPIC" =
      .mk { (new "o" "m8").fields with
        public_cflags := (new "o" "m8").fields.public_cflags ++ ["-fPIC"] } [] ∧
    make_shared_lib (.mk (new "o" "m8").fields []) =
      .mk { (new "o" "m8").fields with shared_lib := true } [] :=
  ⟨(c8_accumulators_pure_appends (new "o" "m8").fields [] "-fPIC" "K" "V" "crypto"
      "inc" "lp" (by decide) (by decide) (by decide) (by decide) (by decide)
      (by decide)).1,
    (c8_accumulators_pure_appends (new "o" "m8").fields [] "-fPIC" "K" "V" "crypto"
      "inc" "lp" (by decide) (by decide) (by decide) (by decide) (by decide)
      (by decide)).2.2.2.2.2.2.1⟩

/-- C9: deserializing the serialization of a configuration yields a
configuration equal to it on every field except the non-serializable
toolchain handle (which comes back as the default). The hypothesis — every
embedded dependency snapshot carries a default toolchain handle — holds for
every configuration the API can build, since dependency entries are only
ever created by deserialization, which defaults the skipped handle. -/
theorem c9_serialize_roundtrip_lossless (c : CRTModuleBuildInfo)
    (h : depsDefaultB c = true) :
    deserialize (serialize c) = eraseTopToolchain c ∧
    (eraseTopToolchain c).crt_module_name = c.crt_module_name ∧
    (eraseTopToolchain c).private_cflags = c.private_cflags ∧
    (eraseTopToolchain c).public_cflags = c.public_cflags ∧
    (eraseTopToolchain c).private_defines = c.private_defines ∧
    (eraseTopToolchain c).public_defines = c.public_defines ∧
    (eraseTopToolchain c).link_targets = c.link_targets ∧
    (eraseTopToolchain c).shared_lib = c.shared_lib ∧
    (eraseTopToolchain c).lib_name = c.lib_name ∧
    (eraseTopToolchain c).linker_path = c.linker_path ∧
    (eraseTopToolchain c).include_dirs = c.include_dirs ∧
    (eraseTopToolchain c).crt_module_deps = c.crt_module_deps ∧
    (eraseTopToolchain c).build_toolchain = {} := by
  obtain ⟨f, d⟩ := c
  refine ⟨?_, rfl, rfl, rfl, rfl, rfl, rfl, rfl, rfl, rfl, rfl, rfl, rfl⟩
  rw [deserialize_serialize, eraseToolchains, eraseTopToolchain]
  rw [depsDefaultB] at h
  rw [eraseToolchainsList_eq_self d h]

/-- Witness for `c9_serialize_roundtrip_lossless` on `cfg9`, whose top-level
toolchain handle has recorded calls and whose dependency snapshot is
default. -/
theorem c9_witness :
    depsDefaultB cfg9 = true ∧
    deserialize (serialize cfg9) = eraseTopToolchain cfg9 :=
  ⟨by decide, (c9_serialize_roundtrip_lossless cfg9 (by decide)).1⟩

/-- `serializeList` is `List.map serialize`. -/
theorem serializeList_eq_map (l : List CRTModuleBuildInfo) :
    serializeList l = l.map serialize := by
  induction l with
  | nil => rw [serializeList, List.map_nil]
  | cons c cs ih => rw [serializeList, List.map_cons, ih]

/-- C10: the published payload retains the module's private flags and
private defines, and embeds the full serialized configurations of every
dependency recursively; only the toolchain handles are excluded (the
round trip restores everything else). Yet those private settings are never
applied to a downstream toolchain: an entry of the dependency loop issues
flag calls only for the dependency's public flags, and define calls only
for the consuming module's own public defines. -/
theorem c10_payload_retains_private_settings (c : CRTModuleBuildInfo) :
    (serialize c).private_cflags = c.private_cflags ∧
    (serialize c).private_defines = c.private_defines ∧
    (serialize c).deps = c.crt_module_deps.map serialize ∧
    deserialize (serialize c) = eraseToolchains c ∧
    (∀ m, m ∈ c.crt_module_deps → ∀ s,
      ToolOp.flag s ∈ depContribution c m → s ∈ m.public_cflags) ∧
    (∀ m, m ∈ c.crt_module_deps → ∀ k v,
      ToolOp.define k v ∈ depContribution c m → (k, v) ∈ c.public_defines) := by
  obtain ⟨f, d⟩ := c
  refine ⟨rfl, rfl, ?_, deserialize_serialize _, ?_, ?_⟩
  · rw [serialize]
    exact serializeList_eq_map d
  · intro m hm s hs
    simp only [depContribution, List.mem_append, List.mem_map] at hs
    rcases hs with (⟨a, ha, hfa⟩ | ⟨kv, _, hkv⟩) | ⟨q, _, hq⟩
    · cases hfa
      exact ha
    · cases hkv
    · cases hq
  · intro m hm k v hkv
    simp only [depContribution, List.mem_append, List.mem_map] at hkv
    rcases hkv with (⟨a, _, hfa⟩ | ⟨kv, hkvm, hdef⟩) | ⟨q, _, hq⟩
    · cases hfa
    · injection hdef with h1 h2
      have hp : (k, v) = kv := by
        rw [← h1, ← h2]
      exact hp ▸ hkvm
    · cases hq

/-- Witness for `c10_payload_retains_private_settings` on the concrete
module `modM` with dependency `depD`: the payload keeps M's private flags,
and the only flag the dependency loop entry for `depD` can issue is its
public flag. -/
theorem c10_witness :
    (serialize modM).private_cflags = modM.private_cflags ∧
    "-fd" ∈ depD.public_cflags :=
  ⟨(c10_payload_retains_private_settings modM).1,
    (c10_payload_retains_private_settings modM).2.2.2.2.1 depD
      (List.mem_cons_self depD []) "-fd" (by decide)⟩

end AwsCrtCFlags
